/-
Verification of the stock-manage core pipeline (src/analysis/ai_analyzer.py,
src/analysis/risk_manager.py) against its natural-language specification.

Shallow embedding conventions:
* Python floats are modelled as exact rationals (ℚ).
* Optional / nullable values are `Option ℚ` (Python `None` = `none`);
  Python truthiness of a numeric value `x` is `x ≠ 0` (and `isSome` for `None` checks).
* Fallible code is `Except` / `Option`.
All definitions are translated from the source; file/line references are
given in each doc comment.
-/
import Mathlib

namespace StockManage

/-! ## Decision gate data model (ai_analyzer.py `_parse_response`, `analyze_ticker`) -/

/-- Valid oracle actions, `valid_actions = {"STRONG_BUY", "BUY", "HOLD"}`
(ai_analyzer.py line 549). -/
inductive GateAction where
  | strongBuy
  | buy
  | hold
deriving DecidableEq, Repr

/-- Severity order on actions: STRONG_BUY > BUY > HOLD. -/
def severity : GateAction → Nat
  | .strongBuy => 2
  | .buy => 1
  | .hold => 0

/-- The raw dict produced by JSON-parsing the oracle response text
(ai_analyzer.py lines 533-542).  `none` models an absent key. -/
structure RawData where
  action : Option String
  confidence : Option ℚ
  reasoning : Option String
  targetPrice : Option ℚ
  stopLoss : Option ℚ
  technicalScore : Option ℚ
  fundamentalScore : Option ℚ
  sentimentScore : Option ℚ
  weightedScore : Option ℚ
deriving DecidableEq, Repr

/-- The validated verdict produced by `_parse_response`. -/
structure Verdict where
  action : GateAction
  confidence : ℚ
  targetPrice : Option ℚ
  stopLoss : Option ℚ
  technicalScore : Option ℚ
  fundamentalScore : Option ℚ
  sentimentScore : Option ℚ
  weightedScore : Option ℚ
  reasoning : String
deriving DecidableEq, Repr

/-- `"STRONG_BUY" | "BUY" | "HOLD"` check (ai_analyzer.py lines 549-551). -/
def actionOfString : String → Option GateAction
  | "STRONG_BUY" => some .strongBuy
  | "BUY" => some .buy
  | "HOLD" => some .hold
  | _ => none

/-- Confidence clamping (ai_analyzer.py lines 553-556):
`if not (0.0 <= confidence <= 1.0): confidence = max(0.0, min(1.0, confidence))`. -/
def clamp_confidence (c : ℚ) : ℚ :=
  if 0 ≤ c ∧ c ≤ 1 then c else max 0 (min 1 c)

/-- Round to the nearest integer with ties to even, the rule of Python's
builtin `round`. -/
def round_half_even (x : ℚ) : ℤ :=
  if x - Int.floor x < 1/2 then Int.floor x
  else if 1/2 < x - Int.floor x then Int.floor x + 1
  else if Int.floor x % 2 = 0 then Int.floor x else Int.floor x + 1

/-- `round(x, 2)` on the expected weighted score (ai_analyzer.py line 579). -/
def round2 (x : ℚ) : ℚ := (round_half_even (x * 100) : ℤ) / 100

/-- weighted_score consistency check (ai_analyzer.py lines 570-579): when all
four scores are present and `|ws - (0.45 t + 0.30 f + 0.25 s)| > 1.5`, the
reported composite is overwritten with the recomputed one. -/
def check_weighted (w t f s : Option ℚ) : Option ℚ :=
  match w, t, f, s with
  | some ws, some ts, some fs, some ss =>
    let expected := ts * (45/100) + fs * (30/100) + ss * (25/100)
    if 3/2 < |ws - expected| then some (round2 expected) else some ws
  | w, _, _, _ => w

/-- target_price / stop_loss sanity validation (ai_analyzer.py lines 581-596):
when the evaluation-time price is known and positive, a target outside
`[0.95 p, 1.30 p]` or a stop outside `[0.85 p, 0.99 p]` is discarded (set to
`none`); nothing else is touched and the verdict is never rejected here. -/
def validate_prices (currentPrice : Option ℚ) (v : Verdict) : Verdict :=
  match currentPrice with
  | some p =>
    if 0 < p then
      let tp := match v.targetPrice with
        | some t => if p * (95/100) ≤ t ∧ t ≤ p * (130/100) then some t else none
        | none => none
      let sl := match v.stopLoss with
        | some s => if p * (85/100) ≤ s ∧ s ≤ p * (99/100) then some s else none
        | none => none
      { v with targetPrice := tp, stopLoss := sl }
    else v
  | none => v

/-- Per-score clamping to [0, 10] (ai_analyzer.py lines 599-602). -/
def clamp_score (o : Option ℚ) : Option ℚ := o.map fun x => max 0 (min 10 x)

/-- Sub-score range validation step (ai_analyzer.py lines 598-602). -/
def clamp_scores (v : Verdict) : Verdict :=
  { v with
    technicalScore := clamp_score v.technicalScore
    fundamentalScore := clamp_score v.fundamentalScore
    sentimentScore := clamp_score v.sentimentScore }

/-- `_parse_response` (ai_analyzer.py lines 531-604), starting after JSON
decoding: required-field check, action validity, confidence clamp,
weighted-score consistency, price sanity validation, sub-score clamping. -/
def parse_response (d : RawData) (currentPrice : Option ℚ) : Except String Verdict :=
  match d.action, d.confidence, d.reasoning with
  | some act, some conf, some reas =>
    match actionOfString act with
    | none => .error "invalid action"
    | some a =>
      let v : Verdict :=
        { action := a
          confidence := clamp_confidence conf
          targetPrice := d.targetPrice
          stopLoss := d.stopLoss
          technicalScore := d.technicalScore
          fundamentalScore := d.fundamentalScore
          sentimentScore := d.sentimentScore
          weightedScore := check_weighted d.weightedScore d.technicalScore
            d.fundamentalScore d.sentimentScore
          reasoning := reas }
      .ok (clamp_scores (validate_prices currentPrice v))
  | _, _, _ => .error "missing required field"

/-- Confidence-threshold gate (ai_analyzer.py lines 677-685): a BUY/STRONG_BUY
verdict with confidence below the configured threshold is downgraded to HOLD;
the confidence itself is kept. -/
def threshold_step (threshold : ℚ) (v : Verdict) : Verdict :=
  if (v.action = .buy ∨ v.action = .strongBuy) ∧ v.confidence < threshold then
    { v with action := .hold }
  else v

/-- Result dict of `risk_manager.check_can_buy` (risk_manager.py lines 15-94). -/
structure RiskCheck where
  allowed : Bool
  reason : String
  maxAmountPct : ℚ
deriving DecidableEq, Repr

/-- Risk-check step (ai_analyzer.py lines 687-700): only consulted for
BUY/STRONG_BUY; a disallow appends a warning to the reasoning text and keeps
everything else; an exception from the risk checker is swallowed.
`rc` is the risk checker's outcome (`.error` = it raised). -/
def risk_step (v : Verdict) (rc : Except Unit RiskCheck) : Verdict :=
  if v.action = .buy ∨ v.action = .strongBuy then
    match rc with
    | .ok r =>
      if r.allowed then v
      else { v with reasoning := v.reasoning ++ " [리스크 경고: " ++ r.reason ++ "]" }
    | .error _ => v
  else v

/-- The deterministic decision gate applied to a validated verdict before
persistence (ai_analyzer.py lines 677-725): threshold check then risk check.
The persisted `AIRecommendation.action` is exactly the result's action. -/
def decision_gate (threshold : ℚ) (rc : Except Unit RiskCheck) (v : Verdict) : Verdict :=
  risk_step (threshold_step threshold v) rc

/-! ## Priority scorer: regime weights (ai_analyzer.py `get_priority_tickers`) -/

/-- The 5-dimensional factor-weight vector (trend, momentum, mean-reversion,
volume, trend-strength). -/
structure Weights where
  trend : ℚ
  momentum : ℚ
  reversion : ℚ
  volume : ℚ
  strength : ℚ
deriving DecidableEq, Repr

/-- Sum of a weight vector's components. -/
def wsum (w : Weights) : ℚ :=
  w.trend + w.momentum + w.reversion + w.volume + w.strength

/-- Baseline weights of the high_volatility regime (ai_analyzer.py line 769). -/
def high_volatility_weights : Weights :=
  { trend := 15/100, momentum := 10/100, reversion := 40/100
    volume := 15/100, strength := 20/100 }

/-- Baseline weights of the transitional regime (ai_analyzer.py line 772). -/
def transitional_weights : Weights :=
  { trend := 25/100, momentum := 25/100, reversion := 20/100
    volume := 15/100, strength := 15/100 }

/-- Baseline weights of the trending regime (ai_analyzer.py line 775). -/
def trending_weights : Weights :=
  { trend := 30/100, momentum := 30/100, reversion := 10/100
    volume := 15/100, strength := 15/100 }

/-- VIX-level to regime baseline weights (ai_analyzer.py lines 766-775):
VIX > 28 → high_volatility, VIX > 20 → transitional, else trending. -/
def regime_weights (vix : ℚ) : Weights :=
  if 28 < vix then high_volatility_weights
  else if 20 < vix then transitional_weights
  else trending_weights

/-- ADX micro-regime adjustment of the global weights
(ai_analyzer.py lines 1070-1079): `adx` is `ind.adx_14` (nullable). -/
def local_weights (w : Weights) (adx : Option ℚ) : Weights :=
  match adx with
  | none => w
  | some a =>
    if 30 < a then
      { w with momentum := min (w.momentum + 5/100) (40/100)
               reversion := max (w.reversion - 5/100) (5/100) }
    else if a < 20 then
      { w with reversion := min (w.reversion + 10/100) (45/100)
               momentum := max (w.momentum - 10/100) (5/100) }
    else w

/-- Final renormalization of the weight vector (ai_analyzer.py lines 1081-1084):
`if w_sum > 0: divide every component by w_sum`. -/
def normalize_weights (w : Weights) : Weights :=
  if 0 < wsum w then
    { trend := w.trend / wsum w, momentum := w.momentum / wsum w
      reversion := w.reversion / wsum w, volume := w.volume / wsum w
      strength := w.strength / wsum w }
  else w

/-- The effective per-instrument weight vector used for the composite:
regime baseline, then ADX micro-regime adjustment, then renormalization
(ai_analyzer.py lines 766-775 and 1070-1084). -/
def effective_weights (vix : ℚ) (adx : Option ℚ) : Weights :=
  normalize_weights (local_weights (regime_weights vix) adx)

/-! ## Priority scorer: momentum factor F2 (ai_analyzer.py lines 874-927) -/

/-- The fields of the previous TechnicalIndicator row used by the momentum
factor (`prev_ind`, itself nullable; its `macd_hist` column is also nullable). -/
structure PrevInd where
  macdHist : Option ℚ
deriving DecidableEq, Repr

/-- Inputs of the F2 momentum computation for one instrument:
current indicator row fields, previous row, recent daily closes
(most recent first, `price_rows[i].close`), and the latest volume. -/
structure MomentumInput where
  macdHist : Option ℚ
  rsi14 : Option ℚ
  ma20 : Option ℚ
  ma50 : Option ℚ
  volumeMa20 : Option ℚ
  prev : Option PrevInd
  closes : List ℚ
  latestVolume : ℚ
deriving DecidableEq, Repr

/-- `current_price = price_rows[0].close` (ai_analyzer.py line 830). -/
def currentPrice (inp : MomentumInput) : ℚ := inp.closes.headD 0

/-- Fresh bullish MACD crossover flag (ai_analyzer.py lines 878-884):
`prev_ind and prev_ind.macd_hist is not None and prev_ind.macd_hist <= 0 < ind.macd_hist`. -/
def is_golden_cross (inp : MomentumInput) : Bool :=
  match inp.macdHist, inp.prev with
  | some mh, some pr =>
    match pr.macdHist with
    | some ph => decide (ph ≤ 0 ∧ 0 < mh)
    | none => false
  | _, _ => false

/-- Mo1: MACD histogram points (ai_analyzer.py lines 877-890). -/
def macd_pts (inp : MomentumInput) : ℚ :=
  match inp.macdHist with
  | none => 0
  | some mh =>
    if is_golden_cross inp then 3
    else if 0 < mh then
      match inp.prev with
      | some pr =>
        match pr.macdHist with
        | some ph => if ph < mh then 2 else 3/2
        | none => 3/2
      | none => 3/2
    else 0

/-- Mo2: RSI momentum-zone points (ai_analyzer.py lines 892-901). -/
def rsi_pts (inp : MomentumInput) : ℚ :=
  match inp.rsi14 with
  | none => 0
  | some r =>
    if 55 ≤ r ∧ r ≤ 65 then 5/2
    else if 50 ≤ r ∧ r < 55 then 2
    else if 45 ≤ r ∧ r < 50 then 1
    else if 65 < r ∧ r ≤ 70 then 3/2
    else 0

/-- `price_rows[4].close` when `len(price_rows) >= 5` (ai_analyzer.py line 904). -/
def close4 : List ℚ → Option ℚ
  | _ :: _ :: _ :: _ :: c :: _ => some c
  | _ => none

/-- Mo3: 5-day rate-of-change points (ai_analyzer.py lines 903-913). -/
def roc_pts (inp : MomentumInput) : ℚ :=
  match close4 inp.closes with
  | none => 0
  | some p4 =>
    if 0 < p4 then
      let roc := (currentPrice inp - p4) / p4
      if 5/100 < roc then 5/2
      else if 3/100 < roc then 2
      else if 1/100 < roc then 1
      else if 0 < roc then 1/2
      else 0
    else 0

/-- The momentum factor accumulated before the bull-trap guard:
Mo1 + Mo2 + Mo3 (`f_momentum` just before line 916). -/
def momentum_pre (inp : MomentumInput) : ℚ :=
  min (macd_pts inp) 3 + rsi_pts inp + roc_pts inp

/-- Volume leg of the bull-trap guard (ai_analyzer.py lines 918-920):
`latest_volume and ind.volume_ma_20 and latest_volume < ind.volume_ma_20 * 0.8`
(Python truthiness: a numeric value is truthy iff nonzero). -/
def vol_low (inp : MomentumInput) : Bool :=
  match inp.volumeMa20 with
  | some vma =>
    decide (inp.latestVolume ≠ 0) && decide (vma ≠ 0) &&
      decide (inp.latestVolume < vma * (80/100))
  | none => false

/-- Price-below-MAs leg of the bull-trap guard (ai_analyzer.py lines 921-924):
`ind.ma_20 and ind.ma_50 and current_price < ind.ma_20 and current_price < ind.ma_50`. -/
def below_mas (inp : MomentumInput) : Bool :=
  match inp.ma20, inp.ma50 with
  | some m20, some m50 =>
    decide (m20 ≠ 0) && decide (m50 ≠ 0) &&
      decide (currentPrice inp < m20) && decide (currentPrice inp < m50)
  | _, _ => false

/-- Mo4: the cumulative bull-trap multiplier (ai_analyzer.py lines 916-925):
×0.7 on a volume-starved fresh crossover, ×0.6 additionally when price sits
below both MA20 and MA50. -/
def trap_factor (inp : MomentumInput) : ℚ :=
  (if vol_low inp then 7/10 else 1) * (if below_mas inp then 6/10 else 1)

/-- The full F2 momentum factor (ai_analyzer.py lines 874-927): the guard is
multiplicative and applied only on a fresh golden cross; final clamp to 10. -/
def f_momentum (inp : MomentumInput) : ℚ :=
  min (if is_golden_cross inp then momentum_pre inp * trap_factor inp
       else momentum_pre inp) 10

/-! ## Priority scorer: candidate selection (ai_analyzer.py lines 1110-1131) -/

/-- One entry of `stock_scores`: ticker, composite score, category tags. -/
structure ScoredStock where
  ticker : String
  score : ℚ
  category : List String
deriving DecidableEq, Repr

/-- Primary category of an instrument (ai_analyzer.py lines 1122-1124):
first non-"ETF" category tag, else "OTHER". -/
def primary_sector (cats : List String) : String :=
  match cats.filter (fun c => c ≠ "ETF") with
  | [] => "OTHER"
  | c :: _ => c

/-- Count of already-selected items whose primary category is `c`. -/
def count_sector (sel : List ScoredStock) (c : String) : Nat :=
  (sel.filter (fun s => primary_sector s.category = c)).length

/-- Increment of the `sector_counts` dict at key `p` (ai_analyzer.py line 1131). -/
def bump_count (counts : String → Nat) (p : String) : String → Nat :=
  fun c => if c = p then counts p + 1 else counts c

/-- The greedy diversity-capped selection loop (ai_analyzer.py lines 1118-1131):
stop at `max_count`, skip an item whose primary category already reached
`sector_cap`, otherwise select it and bump its category count. -/
def select_loop (cap maxCount : Nat) :
    List ScoredStock → List ScoredStock → (String → Nat) → List ScoredStock
  | [], sel, _ => sel
  | item :: rest, sel, counts =>
    if maxCount ≤ sel.length then sel
    else if cap ≤ counts (primary_sector item.category) then
      select_loop cap maxCount rest sel counts
    else
      select_loop cap maxCount rest (sel ++ [item])
        (bump_count counts (primary_sector item.category))

/-- Steps 2-3 of `get_priority_tickers` (ai_analyzer.py lines 1110-1131):
stable descending sort by score, then capped greedy selection with
`sector_cap = max(3, max_count // 5)`. -/
def select_candidates (scores : List ScoredStock) (maxCount : Nat) : List ScoredStock :=
  let sorted := scores.mergeSort (fun a b => decide (b.score ≤ a.score))
  select_loop (max 3 (maxCount / 5)) maxCount sorted [] (fun _ => 0)

/-- The ticker list returned by `get_priority_tickers` as a function of the
scored universe (ai_analyzer.py line 1157 returns `selected`). -/
def priority_tickers (scores : List ScoredStock) (maxCount : Nat) : List String :=
  (select_candidates scores maxCount).map (·.ticker)

/-! ## Concurrent dispatcher retry model (ai_analyzer.py lines 613-675, 1159-1239) -/

/-- The attributes of config/settings.py's `Settings` class that the analyzer
reads.  `Settings` is a plain class with no dynamic attribute fallback, so
reading an attribute it never defines raises AttributeError, modelled as
`none`.  config/settings.py line 22 defines GEMINI_API_KEY (empty string is
Python-falsy, modelled as `none`); GEMINI_BACKOFF_BASE and GEMINI_CONCURRENCY
are read at ai_analyzer.py lines 659, 1195, 1212, 1220 but defined nowhere,
so in the repository they are always the `none` (AttributeError) case. -/
structure GeminiSettings where
  apiKey : Option String
  backoffBase : Option Nat
  concurrency : Option Nat
deriving DecidableEq, Repr

/-- The settings object the repository actually constructs
(config/settings.py lines 16-99): the API key comes from the environment;
GEMINI_BACKOFF_BASE and GEMINI_CONCURRENCY are undefined attributes in every
environment. -/
def repo_settings (apiKey : Option String) : GeminiSettings :=
  { apiKey := apiKey, backoffBase := none, concurrency := none }

/-- One oracle API attempt outcome: a successful response text, or an
exception carrying whether its text contains a 429/rate-limit marker and the
retry-delay seconds parsed from the text, if any. -/
inductive ApiCall where
  | ok (text : String)
  | err (is429 : Bool) (retryHint : Option Nat)
deriving DecidableEq, Repr

/-- `_parse_retry_delay` (ai_analyzer.py lines 1189-1192): the parsed seconds
plus one when the regex matches, else 0. -/
def parse_retry_delay : Option Nat → Nat
  | some n => n + 1
  | none => 0

/-- The backoff wait before a retry (ai_analyzer.py lines 659-662 and 1212,
1220): `max(base * 2 ** attempt, parsed_retry_hint)`, the exponential value
alone when no hint parses — computed only once a base value has been read
successfully from the settings. -/
def backoff_wait (base attempt : Nat) (hint : Option Nat) : Nat :=
  max (base * 2 ^ attempt) (parse_retry_delay hint)

/-- The retry loop inside `analyze_ticker` (ai_analyzer.py lines 638-675):
3 attempts; an exception at attempt < 2 enters the retry handler, whose first
statement (line 659) reads `settings.GEMINI_BACKOFF_BASE` — when that
attribute is undefined the handler itself raises AttributeError, which
escapes the loop and is swallowed by the outer except at lines 673-675
(→ `none`, no wait, no retry); when it is defined the handler sleeps
`backoff_wait` and retries; the attempt-2 failure re-raises and is likewise
swallowed at 673-675.  Returns the waits slept and the final response text,
if any.  `fuel` starts at 3 and bounds the loop. -/
def api_attempt_loop (s : GeminiSettings) (call : Nat → ApiCall) :
    Nat → Nat → List Nat × Option String
  | 0, _ => ([], none)
  | fuel + 1, attempt =>
    match call attempt with
    | .ok t => ([], some t)
    | .err _ hint =>
      if attempt < 2 then
        match s.backoffBase with
        | none => ([], none)
        | some base =>
          let w := backoff_wait base attempt hint
          let r := api_attempt_loop s call fuel (attempt + 1)
          (w :: r.1, r.2)
      else ([], none)

/-- `analyze_ticker`'s oracle-call phase (ai_analyzer.py lines 634-675):
`some text` on a successful attempt, `none` (no recommendation, no
exception) otherwise. -/
def analyze_ticker_calls (s : GeminiSettings) (call : Nat → ApiCall) :
    List Nat × Option String :=
  api_attempt_loop s call 3 0

/-- `_get_client` (ai_analyzer.py lines 104-123): raises RuntimeError when no
API key is configured. -/
def get_client (s : GeminiSettings) : Except String Unit :=
  match s.apiKey with
  | none => .error "GEMINI_API_KEY is not set"
  | some _ => .ok ()

/-- The per-item worker body: `_analyze_one` (ai_analyzer.py lines 1198-1226)
around `analyze_ticker` (lines 606-725).  `analyze_ticker` catches the
client-construction RuntimeError (lines 615-619 → `None`) and its oracle loop
swallows every API failure (lines 673-675 → `None`), so it returns normally
on every path; `_analyze_one`'s own except-branches (ResourceExhausted /
"429", lines 1210-1225) are therefore unreachable and it returns on its first
attempt with `rec.action if rec else "ERROR"` (line 1209).  Returns the waits
slept and the item's outcome string. -/
def process_item (s : GeminiSettings) (call : Nat → ApiCall) : List Nat × String :=
  match get_client s with
  | .error _ => ([], "ERROR")
  | .ok _ =>
    let r := analyze_ticker_calls s call
    (r.1, match r.2 with | some a => a | none => "ERROR")

/-- `analyze_all_watchlist` (ai_analyzer.py lines 1159-1239): after the
priority filter, line 1195 executes `concurrency = settings.GEMINI_CONCURRENCY`
before the worker pool or any item exists; when that attribute is undefined
(as in config/settings.py) the statement raises AttributeError, which nothing
catches, so the call aborts before any item starts; only when a concurrency
value can be read does the dispatch run every item and collect one outcome
per ticker. -/
def analyze_all_watchlist (s : GeminiSettings) (tickers : List String)
    (oracle : String → Nat → ApiCall) : Except String (List (String × String)) :=
  match s.concurrency with
  | none => .error "AttributeError: Settings has no attribute GEMINI_CONCURRENCY"
  | some _ => .ok (tickers.map fun t => (t, (process_item s (oracle t)).2))

/-- A concrete oracle trace: one rate-limit error carrying a parsed retry
hint of 7 seconds, then success. -/
def rateLimitedOnceCall : Nat → ApiCall :=
  fun n => if n = 0 then .err true (some 7) else .ok "BUY"

/-! ## Concrete example inputs for the witnesses -/

/-- A tiny concrete scored universe for the selection witness. -/
def exampleScores : List ScoredStock :=
  [{ ticker := "AAPL", score := 5, category := ["TECH"] },
   { ticker := "MSFT", score := 4, category := ["TECH"] }]

/-- A concrete BUY verdict with confidence 0.58 (spec Example 3). -/
def exampleBuyVerdict : Verdict :=
  { action := .buy, confidence := 58/100, targetPrice := none, stopLoss := none
    technicalScore := none, fundamentalScore := none, sentimentScore := none
    weightedScore := none, reasoning := "r" }

/-- A raw payload with an out-of-range confidence of 5. -/
def exampleRawData : RawData :=
  { action := some "BUY", confidence := some 5, reasoning := some "r"
    targetPrice := none, stopLoss := none, technicalScore := none
    fundamentalScore := none, sentimentScore := none, weightedScore := none }

/-- The verdict `_parse_response` produces from `exampleRawData`. -/
def exampleParsedVerdict : Verdict :=
  { action := .buy, confidence := 1, targetPrice := none, stopLoss := none
    technicalScore := none, fundamentalScore := none, sentimentScore := none
    weightedScore := none, reasoning := "r" }

/-- A verdict carrying a target price at 1.45x an evaluation price of 100
(spec Example 4). -/
def exampleTargetVerdict : Verdict :=
  { action := .buy, confidence := 7/10, targetPrice := some 145, stopLoss := none
    technicalScore := none, fundamentalScore := none, sentimentScore := none
    weightedScore := none, reasoning := "r" }

/-- A concrete disallowing risk-check result. -/
def exampleRiskCheck : RiskCheck :=
  { allowed := false, reason := "max holdings", maxAmountPct := 0 }

/-- A concrete instrument snapshot with a fresh golden cross, volume at 50%
of average and price below both MA20 and MA50. -/
def exampleMomentumInput : MomentumInput :=
  { macdHist := some 1, rsi14 := some 60, ma20 := some 110, ma50 := some 120
    volumeMa20 := some 100, prev := some { macdHist := some (-1) }
    closes := [100, 101, 102, 103, 100, 99], latestVolume := 50 }

/-! ## Helper lemmas for the gate -/

theorem risk_step_action (v : Verdict) (rc : Except Unit RiskCheck) :
    (risk_step v rc).action = v.action := by
  unfold risk_step
  split
  · cases rc with
    | ok r =>
      by_cases h : r.allowed <;> simp [h]
    | error e => rfl
  · rfl

theorem risk_step_confidence (v : Verdict) (rc : Except Unit RiskCheck) :
    (risk_step v rc).confidence = v.confidence := by
  unfold risk_step
  split
  · cases rc with
    | ok r =>
      by_cases h : r.allowed <;> simp [h]
    | error e => rfl
  · rfl

theorem clamp_confidence_mem (c : ℚ) :
    0 ≤ clamp_confidence c ∧ clamp_confidence c ≤ 1 := by
  unfold clamp_confidence
  split
  next h => exact h
  next h => exact ⟨le_max_left 0 _, max_le (by norm_num) (min_le_left 1 c)⟩

theorem validate_prices_confidence (p : Option ℚ) (v : Verdict) :
    (validate_prices p v).confidence = v.confidence := by
  unfold validate_prices
  cases p with
  | some q =>
    simp only
    split_ifs <;> rfl
  | none => rfl

theorem clamp_scores_confidence (v : Verdict) :
    (clamp_scores v).confidence = v.confidence := rfl

/-! ## Lemmas for the weight invariant -/

theorem normalize_weights_sum (w : Weights) (h : 0 < wsum w) :
    wsum (normalize_weights w) = 1 := by
  have hne : wsum w ≠ 0 := ne_of_gt h
  unfold normalize_weights
  rw [if_pos h]
  show w.trend / wsum w + w.momentum / wsum w + w.reversion / wsum w
      + w.volume / wsum w + w.strength / wsum w = 1
  rw [div_add_div_same, div_add_div_same, div_add_div_same, div_add_div_same]
  exact div_self hne

theorem local_weights_sum (w : Weights) (adx : Option ℚ)
    (hw : w = trending_weights ∨ w = transitional_weights ∨ w = high_volatility_weights) :
    wsum (local_weights w adx) = 1 := by
  cases adx with
  | none =>
    rcases hw with rfl | rfl | rfl <;>
      norm_num [local_weights, wsum, trending_weights, transitional_weights,
        high_volatility_weights]
  | some a =>
    simp only [local_weights]
    by_cases h30 : 30 < a
    · rw [if_pos h30]
      rcases hw with rfl | rfl | rfl <;>
        norm_num [wsum, trending_weights, transitional_weights,
          high_volatility_weights, min_def, max_def]
    · by_cases h20 : a < 20
      · rw [if_neg h30, if_pos h20]
        rcases hw with rfl | rfl | rfl <;>
          norm_num [wsum, trending_weights, transitional_weights,
            high_volatility_weights, min_def, max_def]
      · rw [if_neg h30, if_neg h20]
        rcases hw with rfl | rfl | rfl <;>
          norm_num [wsum, trending_weights, transitional_weights,
            high_volatility_weights]

/-- Claim C1: For every VIX-derived regime and every instrument ADX value, the
effective 5-dimensional factor-weight vector — regime baseline, per-instrument
ADX micro-regime adjustment, final renormalization — has components summing
to exactly 1. -/
theorem effective_weights_sum (vix : ℚ) (adx : Option ℚ) :
    wsum (effective_weights vix adx) = 1 := by
  have hbase : regime_weights vix = trending_weights ∨
      regime_weights vix = transitional_weights ∨
      regime_weights vix = high_volatility_weights := by
    unfold regime_weights
    split_ifs <;> simp
  have h1 : wsum (local_weights (regime_weights vix) adx) = 1 :=
    local_weights_sum _ adx hbase
  unfold effective_weights
  exact normalize_weights_sum _ (by rw [h1]; norm_num)

/-! ## Lemmas for the selection bounds -/

theorem count_sector_append (sel : List ScoredStock) (item : ScoredStock) (c : String) :
    count_sector (sel ++ [item]) c =
      count_sector sel c + (if primary_sector item.category = c then 1 else 0) := by
  unfold count_sector
  rw [List.filter_append, List.length_append]
  congr 1
  by_cases h : primary_sector item.category = c <;> simp [h]

theorem select_loop_length (cap maxCount : Nat) :
    ∀ (items sel : List ScoredStock) (counts : String → Nat),
      sel.length ≤ maxCount →
      (select_loop cap maxCount items sel counts).length ≤ maxCount := by
  intro items
  induction items with
  | nil => intro sel counts h; exact h
  | cons item rest ih =>
    intro sel counts h
    unfold select_loop
    split
    · exact h
    · next hfull =>
      split
      · exact ih sel counts h
      · apply ih
        simp only [List.length_append, List.length_cons, List.length_nil]
        omega

theorem select_loop_sector (cap maxCount : Nat) :
    ∀ (items sel : List ScoredStock) (counts : String → Nat),
      (∀ c, counts c = count_sector sel c) →
      (∀ c, count_sector sel c ≤ cap) →
      ∀ c, count_sector (select_loop cap maxCount items sel counts) c ≤ cap := by
  intro items
  induction items with
  | nil => intro sel counts _ hle c; exact hle c
  | cons item rest ih =>
    intro sel counts hcnt hle c
    unfold select_loop
    split
    · exact hle c
    · split
      · exact ih sel counts hcnt hle c
      · next hroom =>
        apply ih
        · intro c'
          rw [count_sector_append, ← hcnt c']
          unfold bump_count
          by_cases hc' : c' = primary_sector item.category
          · rw [if_pos hc', hc', if_pos rfl, hcnt]
          · rw [if_neg hc', if_neg (fun hh => hc' hh.symm)]
            omega
        · intro c'
          rw [count_sector_append]
          by_cases hc' : primary_sector item.category = c'
          · rw [if_pos hc', ← hc', ← hcnt]
            omega
          · rw [if_neg hc']
            simpa using hle c'

/-- Claim C2: The candidate list returned by `get_priority_tickers` has length at
most `max_count`, and for every primary category at most
`max(3, max_count / 5)` selected tickers carry that primary category. -/
theorem priority_tickers_bounds (scores : List ScoredStock) (maxCount : Nat)
    (_hmc : 1 ≤ maxCount) :
    (priority_tickers scores maxCount).length ≤ maxCount ∧
    ∀ c, count_sector (select_candidates scores maxCount) c ≤ max 3 (maxCount / 5) := by
  constructor
  · unfold priority_tickers
    rw [List.length_map]
    unfold select_candidates
    exact select_loop_length _ _ _ [] _ (by simp)
  · intro c
    unfold select_candidates
    exact select_loop_sector _ _ _ [] _ (fun _ => rfl)
      (fun _ => by simp [count_sector]) c

/-- Witness for C2 at a concrete universe and `max_count = 1`. -/
theorem priority_tickers_bounds_witness :
    (priority_tickers exampleScores 1).length ≤ 1 ∧
    count_sector (select_candidates exampleScores 1) "TECH" ≤ max 3 (1 / 5) :=
  ⟨(priority_tickers_bounds exampleScores 1 (by decide)).1,
   (priority_tickers_bounds exampleScores 1 (by decide)).2 "TECH"⟩

/-! ## Decision-gate claims -/

/-- Claim C3: Across the threshold check and the risk check, the action finally
persisted by the decision gate is never more severe than the validated
action: severity only moves down (STRONG_BUY → BUY → HOLD), never up. -/
theorem decision_gate_monotone (threshold : ℚ) (rc : Except Unit RiskCheck)
    (v : Verdict) :
    severity (decision_gate threshold rc v).action ≤ severity v.action := by
  unfold decision_gate
  rw [risk_step_action]
  unfold threshold_step
  split
  · exact Nat.zero_le _
  · exact le_refl _

/-- Claim C4: A validated BUY/STRONG_BUY verdict whose confidence is strictly below
the configured buy-confidence threshold is downgraded to HOLD with its
confidence exactly preserved. -/
theorem threshold_step_downgrade (threshold : ℚ) (v : Verdict)
    (ha : v.action = .buy ∨ v.action = .strongBuy) (hc : v.confidence < threshold) :
    (threshold_step threshold v).action = .hold ∧
    (threshold_step threshold v).confidence = v.confidence := by
  unfold threshold_step
  rw [if_pos ⟨ha, hc⟩]
  exact ⟨rfl, rfl⟩

/-- Witness for C4: confidence 0.58, threshold 0.65, action BUY → HOLD with
confidence still 0.58. -/
theorem threshold_step_downgrade_witness :
    (threshold_step (65/100) exampleBuyVerdict).action = .hold ∧
    (threshold_step (65/100) exampleBuyVerdict).confidence
      = exampleBuyVerdict.confidence :=
  threshold_step_downgrade (65/100) exampleBuyVerdict (Or.inl rfl) (by norm_num [exampleBuyVerdict])

/-- Claim C5: Every oracle response that passes validation carries a confidence in
the closed interval [0, 1], for every rational confidence input, including
out-of-range values. -/
theorem parse_response_confidence_mem (d : RawData) (p : Option ℚ) (v : Verdict)
    (h : parse_response d p = .ok v) :
    0 ≤ v.confidence ∧ v.confidence ≤ 1 := by
  unfold parse_response at h
  split at h
  · split at h
    · exact absurd h (by simp)
    · injection h with h
      subst h
      rw [clamp_scores_confidence, validate_prices_confidence]
      exact clamp_confidence_mem _
  · exact absurd h (by simp)

/-- Witness for C5: the out-of-range confidence 5 is clamped into [0, 1]. -/
theorem parse_response_confidence_mem_witness :
    0 ≤ exampleParsedVerdict.confidence ∧ exampleParsedVerdict.confidence ≤ 1 :=
  parse_response_confidence_mem exampleRawData none exampleParsedVerdict (by rfl)

/-- Claim C6: Validated against a known positive evaluation-time price, a target
price outside [0.95p, 1.30p] or a stop price outside [0.85p, 0.99p] is
discarded (set to unknown) while the verdict is not rejected and its action,
confidence and every other field are left unchanged. -/
theorem validate_prices_discard (p : ℚ) (v : Verdict) (hp : 0 < p) :
    ((validate_prices (some p) v).action = v.action ∧
     (validate_prices (some p) v).confidence = v.confidence ∧
     (validate_prices (some p) v).technicalScore = v.technicalScore ∧
     (validate_prices (some p) v).fundamentalScore = v.fundamentalScore ∧
     (validate_prices (some p) v).sentimentScore = v.sentimentScore ∧
     (validate_prices (some p) v).weightedScore = v.weightedScore ∧
     (validate_prices (some p) v).reasoning = v.reasoning) ∧
    (∀ t, v.targetPrice = some t → ¬(p * (95/100) ≤ t ∧ t ≤ p * (130/100)) →
       (validate_prices (some p) v).targetPrice = none) ∧
    (∀ s, v.stopLoss = some s → ¬(p * (85/100) ≤ s ∧ s ≤ p * (99/100)) →
       (validate_prices (some p) v).stopLoss = none) := by
  refine ⟨?_, ?_, ?_⟩
  · unfold validate_prices
    simp only
    rw [if_pos hp]
    exact ⟨rfl, rfl, rfl, rfl, rfl, rfl, rfl⟩
  · intro t ht hout
    unfold validate_prices
    simp only
    rw [if_pos hp]
    simp only [ht]
    rw [if_neg hout]
  · intro s hs hout
    unfold validate_prices
    simp only
    rw [if_pos hp]
    simp only [hs]
    rw [if_neg hout]

/-- Witness for C6: target 145 vs price 100 (outside the 0.95-1.30 band) is
discarded; action and confidence are untouched. -/
theorem validate_prices_discard_witness :
    (validate_prices (some 100) exampleTargetVerdict).targetPrice = none ∧
    (validate_prices (some 100) exampleTargetVerdict).action
      = exampleTargetVerdict.action ∧
    (validate_prices (some 100) exampleTargetVerdict).confidence
      = exampleTargetVerdict.confidence := by
  have h := validate_prices_discard 100 exampleTargetVerdict (by norm_num)
  exact ⟨h.2.1 145 rfl (by norm_num [exampleTargetVerdict]), h.1.1, h.1.2.1⟩

/-- Claim C10: When the risk checker disallows a buy for a BUY/STRONG_BUY verdict,
the risk-check step keeps the action and confidence unchanged and only
appends the disallow reason to the reasoning; an exception from the risk
checker leaves the verdict entirely unchanged; no input can change the
action at this step (the soft-warn policy is hard-coded). -/
theorem risk_step_soft_warn (v : Verdict) (rc : Except Unit RiskCheck) :
    ((risk_step v rc).action = v.action ∧
     (risk_step v rc).confidence = v.confidence) ∧
    (∀ r, rc = .ok r → r.allowed = false →
       (v.action = .buy ∨ v.action = .strongBuy) →
       (risk_step v rc).reasoning
         = v.reasoning ++ " [리스크 경고: " ++ r.reason ++ "]") ∧
    (∀ e, rc = .error e → risk_step v rc = v) := by
  refine ⟨⟨risk_step_action v rc, risk_step_confidence v rc⟩, ?_, ?_⟩
  · intro r hrc hal ha
    subst hrc
    unfold risk_step
    rw [if_pos ha]
    simp [hal]
  · intro e hrc
    subst hrc
    unfold risk_step
    split <;> rfl

/-- Witness for C10: a disallowed BUY keeps its action and only gains a
warning suffix in its reasoning. -/
theorem risk_step_soft_warn_witness :
    (risk_step exampleBuyVerdict (.ok exampleRiskCheck)).reasoning
      = exampleBuyVerdict.reasoning ++ " [리스크 경고: "
        ++ exampleRiskCheck.reason ++ "]" :=
  (risk_step_soft_warn exampleBuyVerdict (.ok exampleRiskCheck)).2.1
    exampleRiskCheck rfl rfl (Or.inl rfl)

/-! ## Momentum factor: bull-trap guard -/

theorem rsi_pts_le (inp : MomentumInput) : rsi_pts inp ≤ 5/2 := by
  unfold rsi_pts
  rcases inp.rsi14 with _ | r
  · norm_num
  · dsimp only
    split_ifs <;> norm_num

theorem roc_pts_le (inp : MomentumInput) : roc_pts inp ≤ 5/2 := by
  unfold roc_pts
  rcases close4 inp.closes with _ | p4
  · norm_num
  · dsimp only
    split_ifs <;> norm_num

theorem momentum_pre_le_eight (inp : MomentumInput) : momentum_pre inp ≤ 8 := by
  unfold momentum_pre
  have h1 : min (macd_pts inp) 3 ≤ 3 := min_le_right _ _
  have h2 := rsi_pts_le inp
  have h3 := roc_pts_le inp
  linarith

/-- Claim C7: On a fresh bullish MACD crossover, the bull-trap guard multiplies the
momentum factor by 0.7 when the latest volume is below 0.8x its 20-day
average, by a further 0.6 when the price sits below both MA20 and MA50 —
compounding to 0.42 when both hold — and neither multiplier is applied when
there is no fresh crossover. -/
theorem f_momentum_bull_trap (inp : MomentumInput) :
    (is_golden_cross inp = true → vol_low inp = true → below_mas inp = true →
       f_momentum inp = momentum_pre inp * (42/100)) ∧
    (is_golden_cross inp = true → vol_low inp = true → below_mas inp = false →
       f_momentum inp = momentum_pre inp * (7/10)) ∧
    (is_golden_cross inp = true → vol_low inp = false → below_mas inp = true →
       f_momentum inp = momentum_pre inp * (6/10)) ∧
    (is_golden_cross inp = false → f_momentum inp = momentum_pre inp) := by
  have hpre := momentum_pre_le_eight inp
  refine ⟨?_, ?_, ?_, ?_⟩
  · intro h1 h2 h3
    unfold f_momentum trap_factor
    rw [h1, h2, h3]
    simp only [if_true]
    rw [min_eq_left (by linarith)]
    ring
  · intro h1 h2 h3
    unfold f_momentum trap_factor
    rw [h1, h2, h3]
    simp only [if_true, Bool.false_eq_true, if_false, mul_one]
    exact min_eq_left (by linarith)
  · intro h1 h2 h3
    unfold f_momentum trap_factor
    rw [h1, h2, h3]
    simp only [if_true, Bool.false_eq_true, if_false, one_mul]
    exact min_eq_left (by linarith)
  · intro h1
    unfold f_momentum
    rw [h1]
    simp only [Bool.false_eq_true, if_false]
    exact min_eq_left (by linarith)

/-- Witness for C7: both guard legs fire and the momentum factor is exactly
0.42 of its raw crossover value. -/
theorem f_momentum_bull_trap_witness :
    f_momentum exampleMomentumInput = momentum_pre exampleMomentumInput * (42/100) :=
  (f_momentum_bull_trap exampleMomentumInput).1
    (by norm_num [is_golden_cross, exampleMomentumInput])
    (by norm_num [vol_low, exampleMomentumInput])
    (by norm_num [below_mas, currentPrice, exampleMomentumInput])

/-! ## Dispatcher retry claims -/

theorem analyze_ticker_calls_no_base (s : GeminiSettings) (call : Nat → ApiCall)
    (hbb : s.backoffBase = none) :
    analyze_ticker_calls s call =
      (match call 0 with
       | .ok t => ([], some t)
       | .err _ _ => ([], none)) := by
  unfold analyze_ticker_calls
  unfold api_attempt_loop
  rcases call 0 with t | ⟨b, h⟩
  · rfl
  · dsimp only
    rw [hbb, if_pos (show 0 < 2 by norm_num)]

/-- Claim C8 (amended): with the repository settings, GEMINI_BACKOFF_BASE is
undefined, so each dispatched item gets a single oracle attempt: a successful
first attempt yields its action, while ANY oracle error — rate-limit or not —
makes the retry handler itself fail with AttributeError, which is swallowed,
and the item is immediately marked ERROR: no wait is slept, no retry occurs
and nothing raises out of the item. -/
theorem process_item_no_retry (s : GeminiSettings) (call : Nat → ApiCall)
    (k t : String) (b : Bool) (h : Option Nat)
    (hk : s.apiKey = some k) (hbb : s.backoffBase = none) :
    (process_item s call).1 = [] ∧
    (call 0 = .ok t → process_item s call = ([], t)) ∧
    (call 0 = .err b h → process_item s call = ([], "ERROR")) := by
  have key := analyze_ticker_calls_no_base s call hbb
  refine ⟨?_, ?_, ?_⟩
  · unfold process_item get_client
    rw [hk]
    dsimp only
    rw [key]
    rcases call 0 with t' | ⟨b', h'⟩ <;> rfl
  · intro hc0
    unfold process_item get_client
    rw [hk]
    dsimp only
    rw [key, hc0]
  · intro hc0
    unfold process_item get_client
    rw [hk]
    dsimp only
    rw [key, hc0]

/-- Counterexample to claim C8 as stated: under the repository settings an
item whose oracle rate-limits on the first attempt and would succeed on the
second is marked ERROR immediately — the promised backoff-and-retry on a
rate-limit signal never happens, because the handler reads the undefined
GEMINI_BACKOFF_BASE and the resulting AttributeError is swallowed. -/
theorem process_item_counterexample :
    rateLimitedOnceCall 0 = .err true (some 7) ∧
    rateLimitedOnceCall 1 = .ok "BUY" ∧
    process_item (repo_settings (some "key")) rateLimitedOnceCall = ([], "ERROR") ∧
    ¬ ∀ (call : Nat → ApiCall) (h : Option Nat) (t : String),
        call 0 = .err true h → call 1 = .ok t →
        (process_item (repo_settings (some "key")) call).2 = t := by
  refine ⟨rfl, rfl, by decide, ?_⟩
  intro hclaim
  have h1 := hclaim rateLimitedOnceCall (some 7) "BUY" rfl rfl
  have h2 : process_item (repo_settings (some "key")) rateLimitedOnceCall
      = ([], "ERROR") := by decide
  rw [h2] at h1
  exact absurd h1 (by decide)

/-- Witness for C8 (amended) at the repository settings and a concrete
rate-limited oracle: single attempt, no wait, immediate ERROR. -/
theorem process_item_no_retry_witness :
    process_item (repo_settings (some "k")) rateLimitedOnceCall = ([], "ERROR") :=
  (process_item_no_retry (repo_settings (some "k")) rateLimitedOnceCall
    "k" "BUY" true (some 7) rfl rfl).2.2 rfl

/-! ## Configuration-fatal handling claims -/

/-- Claim C9 (amended): every call of `analyze_all_watchlist` under the
repository settings aborts before any item starts — reading the undefined
settings.GEMINI_CONCURRENCY raises AttributeError, which propagates to the
caller regardless of whether the oracle credential is configured; no outcome
map is ever returned and no oracle work runs (the result does not depend on
the oracle at all). -/
theorem analyze_all_aborts (apiKey : Option String) (tickers : List String)
    (oracle : String → Nat → ApiCall) :
    (∃ e, analyze_all_watchlist (repo_settings apiKey) tickers oracle = .error e) ∧
    (∀ m, analyze_all_watchlist (repo_settings apiKey) tickers oracle ≠ .ok m) ∧
    (∀ oracle2, analyze_all_watchlist (repo_settings apiKey) tickers oracle
       = analyze_all_watchlist (repo_settings apiKey) tickers oracle2) := by
  refine ⟨⟨_, rfl⟩, ?_, ?_⟩
  · intro m hm
    simp [analyze_all_watchlist, repo_settings] at hm
  · intro oracle2
    rfl

/-- Counterexample to claim C9 as stated: with a PRESENT oracle credential
the dispatch still aborts with a hard failure before any item starts, so the
missing-credential class is not the only failure that propagates, and no
complete per-ticker outcome map is returned. -/
theorem analyze_all_counterexample :
    analyze_all_watchlist (repo_settings (some "key")) ["AAPL"]
      (fun _ => rateLimitedOnceCall)
      = .error "AttributeError: Settings has no attribute GEMINI_CONCURRENCY" ∧
    ¬ ∀ (tickers : List String) (oracle : String → Nat → ApiCall),
        ∃ m, analyze_all_watchlist (repo_settings (some "key")) tickers oracle
          = .ok m := by
  refine ⟨rfl, ?_⟩
  intro hclaim
  obtain ⟨m, hm⟩ := hclaim ["AAPL"] (fun _ => rateLimitedOnceCall)
  simp [analyze_all_watchlist, repo_settings] at hm

/-- Witness for C9 (amended): a concrete call with a configured credential
still refuses to produce an outcome map. -/
theorem analyze_all_aborts_witness :
    analyze_all_watchlist (repo_settings (some "key2")) ["TSLA"]
      (fun _ => rateLimitedOnceCall)
      ≠ .ok [("TSLA", "ERROR")] :=
  (analyze_all_aborts (some "key2") ["TSLA"] (fun _ => rateLimitedOnceCall)).2.1
    [("TSLA", "ERROR")]

end StockManage
